import Mathlib

set_option autoImplicit false

/-!
Shallow embedding of the SonicCompass single-page application
(src/App.jsx): the retrying HTTP orchestration of `fetchConcerts`,
the date formatting of `toIsoString`, the Ticketmaster result
normalization, the playlist synthesis of `generatePlaylistFromConcerts`,
and the remote playlist publisher `createYouTubeMusicPlaylist`.
Network exchanges are modelled by explicit outcome oracles; JavaScript
numbers that only ever hold exact decimal coordinates are modelled as `ℚ`,
machine timestamps as `Int` milliseconds.
-/


/-- `const MAX_RETRIES = 2` (App.jsx line 56): maximum number of additional
attempts for any API call, i.e. 3 total attempts. -/
def MAX_RETRIES : Nat := 2

/-- Outcome of one iteration of the try-block of a retry loop, after response
processing: either the value carried past the `break` on success, or the
message of an error thrown inside the block (caught by the catch of the loop). -/
inductive Attempt (α : Type) where
  | ok (value : α)
  | fail (msg : String)
deriving DecidableEq

/-- The retry loops of `fetchConcerts` (App.jsx lines 134-166 and 224-271):
`i` is the 0-based attempt index, `rem` the number of retries still allowed
(the loops start with `i = 0`, `rem = MAX_RETRIES`, so the guard
`i === MAX_RETRIES` of the source corresponds to `rem = 0`).  The result is
the loop outcome paired with the list of backoff delays (milliseconds)
incurred, in order; each delay is `1000 * (i + 1)` as in the source.
`waitFinal` distinguishes the Ticketmaster loop, which still executes the
backoff `setTimeout` after the final failed attempt (its catch block does
not `return`), from the OpenCage loop, which returns before it. -/
def retryLoop {α : Type} (waitFinal : Bool) (attempts : Nat → Attempt α) :
    Nat → Nat → Except String α × List Nat
  | i, 0 =>
    match attempts i with
    | .ok v => (.ok v, [])
    | .fail m => (.error m, if waitFinal then [1000 * (i + 1)] else [])
  | i, rem + 1 =>
    match attempts i with
    | .ok v => (.ok v, [])
    | .fail _ =>
      let rest := retryLoop waitFinal attempts (i + 1) rem
      (rest.1, 1000 * (i + 1) :: rest.2)

/-- The OpenCage geocoding retry loop shell (App.jsx lines 134-166). -/
def opencageRetry {α : Type} (attempts : Nat → Attempt α) : Except String α × List Nat :=
  retryLoop false attempts 0 MAX_RETRIES

/-- The Ticketmaster retry loop shell (App.jsx lines 224-271). -/
def ticketmasterRetry {α : Type} (attempts : Nat → Attempt α) : Except String α × List Nat :=
  retryLoop true attempts 0 MAX_RETRIES

/-- `results[0].geometry` of an OpenCage response (App.jsx lines 148-149). -/
structure Geometry where
  lat : ℚ
  lng : ℚ
deriving DecidableEq

/-- One OpenCage HTTP exchange as observed by the code: the `fetch` may
throw (network failure), the response may have a non-ok status (its error
text is read), or it parses to a JSON body whose `results` array we keep
(a body without a `results` field behaves like an empty array). -/
inductive OCResponse where
  | netThrow (msg : String)
  | httpError (status : Nat) (body : String)
  | okJson (results : List Geometry)

/-- Processing of one OpenCage attempt (App.jsx lines 136-154): a non-ok
status and an empty result set are both thrown inside the try-block, hence
both surface as `Attempt.fail` to the retry loop. -/
def opencageProcess (city : String) : OCResponse → Attempt (ℚ × ℚ)
  | .netThrow m => .fail m
  | .httpError status body =>
    .fail ("OpenCage Geocoding API HTTP error! status: " ++ toString status ++
      ", response: " ++ body)
  | .okJson results =>
    match results with
    | [] => .fail ("Could not find coordinates for \"" ++ city ++ "\".")
    | g :: _ => .ok (g.lat, g.lng)

/-- The geocoding phase of `fetchConcerts` (App.jsx lines 130-166): the
retry loop over OpenCage attempts, wrapping exhaustion in the user-facing
message of lines 157-159. -/
def geocodePhase (city : String) (responses : Nat → OCResponse) :
    Except String (ℚ × ℚ) × List Nat :=
  let r := opencageRetry (fun i => opencageProcess city (responses i))
  match r.1 with
  | .ok c => (.ok c, r.2)
  | .error m =>
    (.error ("Failed to get location coordinates after " ++ toString (MAX_RETRIES + 1) ++
      " attempts: " ++ m ++ ". Please check your OpenCage API key and network connection."),
      r.2)

/-- A proleptic Gregorian calendar date (1-based month and day). -/
structure Civil where
  year : Int
  month : Int
  day : Int
deriving DecidableEq

/-- Days since 1970-01-01 of the civil date `(y, m, d)` — the conversion a
JavaScript engine performs (`MakeDay`) when `Date.prototype.setDate`
rebuilds a timestamp from local calendar fields (Hinnant
`days_from_civil`); `d` may lie outside `[1, 31]` and is normalized, which
is exactly the out-of-range behaviour of `setDate`.  `Int` division is
floor division (`Int.ediv`), matching JavaScript `Math.floor` use. -/
def daysFromCivil (y m d : Int) : Int :=
  let yAdj := if m ≤ 2 then y - 1 else y
  let era := yAdj / 400
  let yoe := yAdj - era * 400
  let mp := if m > 2 then m - 3 else m + 9
  let doy := (153 * mp + 2) / 5 + d - 1
  let doe := yoe * 365 + yoe / 4 - yoe / 100 + doy
  era * 146097 + doe - 719468

/-- Civil date of day `z` counted from 1970-01-01 (Hinnant
`civil_from_days`) — the conversion behind the local calendar accessors
`getFullYear`, `getMonth` and `getDate`. -/
def civilFromDays (z : Int) : Civil :=
  let zAdj := z + 719468
  let era := zAdj / 146097
  let doe := zAdj - era * 146097
  let yoe := (doe - doe / 1460 + doe / 36524 - doe / 146096) / 365
  let y := yoe + era * 400
  let doy := doe - (365 * yoe + yoe / 4 - yoe / 100)
  let mp := (5 * doy + 2) / 153
  let d := doy - (153 * mp + 2) / 5 + 1
  let m := mp + (if mp < 10 then 3 else -9)
  ⟨(if m ≤ 2 then y + 1 else y), m, d⟩

/-- First day-of-era (days since the start of the 400-year era) of
year-of-era `y` — the inner `365 * yoe + yoe / 4 - yoe / 100` expression of
`civilFromDays`. -/
def startN (y : Nat) : Nat := 365 * y + y / 4 - y / 100

/-- The year-of-era extraction of `civilFromDays`, on `Nat`. -/
def fN (a : Nat) : Nat := (a - a / 1460 + a / 36524 - a / 146096) / 365

/-- `checkRange p s len` is the conjunction of `p (s + k)` for `k < len`,
shaped for efficient kernel evaluation. -/
def checkRange (p : Nat → Bool) (s : Nat) (len : Nat) : Bool :=
  Nat.rec true (fun k acc => p (s + k) && acc) len

/-- A JavaScript `Date`: an instant `t` in milliseconds since the Unix
epoch, interpreted in a runtime-local timezone lying `off` minutes east of
UTC (fixed-offset model of the host timezone; `off = 0` means the runtime
clock is UTC). -/
structure JSDate where
  t : Int
  off : Int
deriving DecidableEq

/-- The local-time millisecond count the calendar accessors read. -/
def JSDate.localMs (date : JSDate) : Int := date.t + date.off * 60000

/-- Local calendar day number (days since the epoch, floor division). -/
def JSDate.localDays (date : JSDate) : Int := date.localMs / 86400000

/-- Local calendar fields of the date. -/
def JSDate.civil (date : JSDate) : Civil := civilFromDays date.localDays

/-- `Date.prototype.getFullYear` (local year). -/
def JSDate.getFullYear (date : JSDate) : Int := date.civil.year

/-- `Date.prototype.getMonth` (0-based local month). -/
def JSDate.getMonth (date : JSDate) : Int := date.civil.month - 1

/-- `Date.prototype.getDate` (1-based local day of month). -/
def JSDate.getDate (date : JSDate) : Int := date.civil.day

/-- `Date.prototype.getHours` (local). -/
def JSDate.getHours (date : JSDate) : Int := date.localMs / 3600000 % 24

/-- `Date.prototype.getMinutes` (local). -/
def JSDate.getMinutes (date : JSDate) : Int := date.localMs / 60000 % 60

/-- `Date.prototype.getSeconds` (local). -/
def JSDate.getSeconds (date : JSDate) : Int := date.localMs / 1000 % 60

/-- `date.setDate(d)`: rebuild the timestamp from the local calendar
fields with the day-of-month replaced by `d` (out-of-range values
normalized), keeping the local time of day. -/
def JSDate.setDate (date : JSDate) (d : Int) : JSDate :=
  { t := daysFromCivil date.civil.year date.civil.month d * 86400000
      + date.localMs % 86400000 - date.off * 60000,
    off := date.off }

/-- The `pad` helper inside `toIsoString` (App.jsx line 95): JavaScript
zero-pads a number below 10, otherwise coerces it to its decimal string. -/
def pad (num : Int) : String := if num < 10 then "0" ++ toString num else toString num

/-- `toIsoString` (App.jsx lines 94-103).  Note that the source reads the
LOCAL-time accessors (`getFullYear`, `getHours`, ...) and appends a
literal "Z". -/
def toIsoString (date : JSDate) : String :=
  toString date.getFullYear ++
    "-" ++ pad (date.getMonth + 1) ++
    "-" ++ pad date.getDate ++
    "T" ++ pad date.getHours ++
    ":" ++ pad date.getMinutes ++
    ":" ++ pad date.getSeconds ++
    "Z"

/-- Modelled from the spec: "computes `startDateTime = now`,
`endDateTime = now + dateWindowDays`, both formatted as whole-second UTC
timestamps (`YYYY-MM-DDTHH:MM:SSZ`)" — the true UTC rendering of the
instant `t`, i.e. the same field formatting evaluated at offset zero. -/
def specUtcTimestamp (t : Int) : String := toIsoString { t := t, off := 0 }

/-- The `startDateTime`/`endDateTime` URL fragment of `fetchConcerts`
(App.jsx lines 197-218).  `now1` is the instant read by the first
`new Date()` (for `startDate`), `now2` the instant read by the second (for
`endDate`), `off` the local timezone offset.  A non-empty but unrecognized
filter appends the parameters with `endDate` left at `now2` (the switch
default case does nothing); an empty filter appends nothing. -/
def dateFilterFragment (dateFilter : String) (now1 now2 off : Int) : String :=
  if dateFilter ≠ "" then
    let startDate : JSDate := { t := now1, off := off }
    let endDate0 : JSDate := { t := now2, off := off }
    let endDate :=
      if dateFilter = "30" then endDate0.setDate (startDate.getDate + 30)
      else if dateFilter = "60" then endDate0.setDate (startDate.getDate + 60)
      else if dateFilter = "90" then endDate0.setDate (startDate.getDate + 90)
      else endDate0
    "&startDateTime=" ++ toIsoString startDate ++ "&endDateTime=" ++ toIsoString endDate
  else ""

/-- The query-parameter part of `ticketmasterApiUrl` built before the date
filter (App.jsx lines 178-195).  `enc` stands for JavaScript
`encodeURIComponent` and `numToStr` for its number-to-string coercion;
both are kept abstract.  The latitude/longitude guard repeats the
JavaScript truthiness test of line 184 (a coordinate equal to 0 is
falsy). -/
def tmUrlBase (apiKey : String) (enc : String → String) (numToStr : ℚ → String)
    (latitude longitude : ℚ) (searchRadius genre : String) : String :=
  let u0 := "https://app.ticketmaster.com/discovery/v2/events.json?apikey=" ++ apiKey ++ "&size=50"
  let u1 := u0 ++ "&segmentName=Music"
  let u2 :=
    if latitude ≠ 0 ∧ longitude ≠ 0 then
      u1 ++ "&latlong=" ++ numToStr latitude ++ "," ++ numToStr longitude
    else u1
  let u3 :=
    if searchRadius ≠ "" then u2 ++ "&radius=" ++ enc searchRadius ++ "&unit=miles" else u2
  if genre ≠ "" then u3 ++ "&keyword=" ++ enc genre else u3

/-- The full `ticketmasterApiUrl` (App.jsx lines 178-221). -/
def buildTicketmasterUrl (apiKey : String) (enc : String → String) (numToStr : ℚ → String)
    (latitude longitude : ℚ) (searchRadius genre dateFilter : String)
    (now1 now2 off : Int) : String :=
  tmUrlBase apiKey enc numToStr latitude longitude searchRadius genre ++
    dateFilterFragment dateFilter now1 now2 off

/-- JavaScript `a || b` for an optional string drawn from provider JSON:
`undefined`/missing and the empty string are both falsy, so both fall back
to the default. -/
def orDefault (o : Option String) (dflt : String) : String :=
  match o with
  | none => dflt
  | some s => if s = "" then dflt else s

/-- The venue subobject `event._embedded?.venues?.[0]`, restricted to the
fields `fetchConcerts` reads. -/
structure TMVenue where
  name : Option String
  cityName : Option String
  stateCode : Option String
deriving DecidableEq

/-- One Ticketmaster event, restricted to the fields `fetchConcerts`
reads (App.jsx lines 233-251); every optional-chained field is an
`Option`. -/
structure TMEvent where
  id : String
  name : String
  venue : Option TMVenue
  localDate : Option String
  genreName : Option String
  info : Option String
  url : Option String
deriving DecidableEq

/-- The record stored in the `concerts` state (App.jsx lines 242-251). -/
structure ConcertRecord where
  id : String
  artist : String
  venue : String
  date : String
  genre : String
  location : String
  description : String
  url : Option String
deriving DecidableEq

/-- `const venueStateCode = venue?.state?.stateCode || ''` (App.jsx line
237). -/
def venueStateCodeOf (event : TMEvent) : String :=
  orDefault (event.venue.bind TMVenue.stateCode) ""

/-- Normalization of one Ticketmaster event into a `ConcertRecord`
(App.jsx lines 233-251). -/
def normalizeEvent (event : TMEvent) : ConcertRecord :=
  let venueName := orDefault (event.venue.bind TMVenue.name) "Unknown Venue"
  let venueCity := orDefault (event.venue.bind TMVenue.cityName) "Unknown City"
  let venueStateCode := venueStateCodeOf event
  let location := venueCity ++ (if venueStateCode ≠ "" then ", " ++ venueStateCode else "")
  let genreName := orDefault event.genreName "Various"
  { id := event.id
    artist := event.name
    venue := venueName
    date := orDefault event.localDate "Date TBD"
    genre := genreName
    location := location
    description := orDefault event.info "No additional info available."
    url := event.url }

/-- One Ticketmaster HTTP exchange as observed by the code: a thrown
network failure, a non-ok status or a parsed JSON body; `events = none`
models a body with no `_embedded.events` (the no-results shape), while
`some []`, which the provider does not produce, would be truthy in
JavaScript and is mapped like any other array. -/
inductive TMResponse where
  | netThrow (msg : String)
  | httpError (status : Nat)
  | okJson (events : Option (List TMEvent))

/-- What one iteration of the Ticketmaster retry loop leaves behind after
its `break` (App.jsx lines 226-261). -/
inductive TMSuccess where
  | events (records : List ConcertRecord)
  | noEvents
deriving DecidableEq

/-- Processing of one Ticketmaster attempt (App.jsx lines 226-261): only a
thrown error or a non-ok status count as failed attempts; an ok response
without events is a successful attempt reporting "no concerts". -/
def ticketmasterProcess : TMResponse → Attempt TMSuccess
  | .netThrow m => .fail m
  | .httpError status => .fail ("Ticketmaster API HTTP error! status: " ++ toString status)
  | .okJson none => .ok .noEvents
  | .okJson (some events) => .ok (.events (events.map normalizeEvent))

/-- The observable outcome of one `fetchConcerts` run: the final
`concerts` and `error` state, whether (and with which URL) the
Ticketmaster request was issued, and the backoff delays incurred by the
two retry loops. -/
structure FetchState where
  concerts : List ConcertRecord
  error : String
  tmUrl : Option String
  ocDelays : List Nat
  tmDelays : List Nat
deriving DecidableEq

/-- The `fetchConcerts` orchestration (App.jsx lines 106-273), composed
from the guards of lines 107-122, the geocoding phase, the coordinate
truthiness guard of lines 168-175, the URL construction and the
Ticketmaster retry loop.  `ocResponses`/`tmResponses` are the response
oracles of the two providers, indexed by attempt. -/
def fetchConcerts (tmKey ocKey city : String) (enc : String → String) (numToStr : ℚ → String)
    (searchRadius genre dateFilter : String) (now1 now2 off : Int)
    (ocResponses : Nat → OCResponse) (tmResponses : Nat → TMResponse) : FetchState :=
  if tmKey = "" then
    { concerts := [],
      error := "Missing Ticketmaster API Key. Please set VITE_TICKETMASTER_API_KEY environment variable in Vercel.",
      tmUrl := none, ocDelays := [], tmDelays := [] }
  else if ocKey = "" then
    { concerts := [],
      error := "Missing OpenCage API Key. Please set VITE_OPENCAGE_API_KEY environment variable in Vercel.",
      tmUrl := none, ocDelays := [], tmDelays := [] }
  else if city = "" then
    { concerts := [], error := "Please enter a city to search for concerts.",
      tmUrl := none, ocDelays := [], tmDelays := [] }
  else
    let geo := geocodePhase city ocResponses
    match geo.1 with
    | .error m =>
      { concerts := [], error := m, tmUrl := none, ocDelays := geo.2, tmDelays := [] }
    | .ok (latitude, longitude) =>
      if latitude = 0 ∨ longitude = 0 then
        { concerts := [],
          error := "Failed to get location coordinates for \"" ++ city ++
            "\". Please try a more specific city name.",
          tmUrl := none, ocDelays := geo.2, tmDelays := [] }
      else
        let url := buildTicketmasterUrl tmKey enc numToStr latitude longitude
          searchRadius genre dateFilter now1 now2 off
        let tm := ticketmasterRetry (fun i => ticketmasterProcess (tmResponses i))
        match tm.1 with
        | .ok (.events records) =>
          { concerts := records, error := "", tmUrl := some url,
            ocDelays := geo.2, tmDelays := tm.2 }
        | .ok .noEvents =>
          { concerts := [],
            error := "No concerts found for your search criteria. Try a different city, widen the radius, or adjust the date range!",
            tmUrl := some url, ocDelays := geo.2, tmDelays := tm.2 }
        | .error m =>
          { concerts := [],
            error := "Failed to fetch concerts after " ++ toString (MAX_RETRIES + 1) ++
              " attempts: " ++ m ++ ". Please check your Ticketmaster API key and network connection.",
            tmUrl := some url, ocDelays := geo.2, tmDelays := tm.2 }


/-- One `{artistName, songTitle}` pair parsed from the generative
provider JSON array (App.jsx lines 450-451). -/
structure SongPair where
  artistName : String
  songTitle : String
deriving DecidableEq

/-- One entry of the `playlist` state (App.jsx lines 472-477). -/
structure PlaylistEntry where
  artistName : String
  songTitle : String
  selected : Bool
  youtubeLink : Option String
deriving DecidableEq

/-- One YouTube video-search exchange as observed by the code: the fetch
(or JSON parse) may throw, or the parsed body yields an optional
`items[0].id.videoId`. -/
inductive YTSearchOutcome where
  | throw (msg : String)
  | found (videoId : String)
  | notFound
deriving DecidableEq

/-- Per-song link resolution (App.jsx lines 454-478): the lookup runs only
under a configured, non-placeholder key; a throw is caught inside the
per-item try/catch and absence of a match merely leaves the link null;
`selected` always starts as `true`. -/
def resolveSong (ytKey : String) (outcome : YTSearchOutcome) (item : SongPair) :
    PlaylistEntry :=
  let youtubeLink :=
    if ytKey ≠ "" ∧ ytKey ≠ "YOUR_YOUTUBE_DATA_API_KEY_HERE" then
      match outcome with
      | .found videoId => some ("https://music.youtube.com/watch?v=" ++ videoId)
      | .notFound => none
      | .throw _ => none
    else none
  { artistName := item.artistName, songTitle := item.songTitle,
    selected := true, youtubeLink := youtubeLink }

/-- The `Promise.all(parsedSongs.map ...)` of App.jsx line 454: one
independent lookup per position, results in input order. -/
def resolveLinks (ytKey : String) (lookup : Nat → YTSearchOutcome) (songs : List SongPair) :
    List PlaylistEntry :=
  songs.enum.map (fun p => resolveSong ytKey (lookup p.1) p.2)

/-- JavaScript `[...new Set(xs)]` (App.jsx line 406): first-occurrence
deduplication, preserving insertion order. -/
def jsSetDedup : List String → List String
  | [] => []
  | x :: xs => x :: (jsSetDedup xs).filter (fun y => y ≠ x)

/-- The `generatePlaylistFromConcerts` flow (App.jsx lines 395-491),
abstracted over the generative provider: `llmParsed = none` models a
malformed or unparseable response (the `else` of line 447 or a thrown
`JSON.parse`), `some pairs` the successfully parsed array.  The result is
the new `playlist` state, `none` when no playlist was produced. -/
def generatePlaylistFromConcerts (ytKey : String) (concerts : List ConcertRecord)
    (llmParsed : Option (List SongPair)) (lookup : Nat → YTSearchOutcome) :
    Option (List PlaylistEntry) :=
  if concerts.length = 0 then none
  else
    let uniqueArtists := jsSetDedup (concerts.map ConcertRecord.artist)
    if uniqueArtists.length = 0 then none
    else
      match llmParsed with
      | none => none
      | some parsedSongs => some (resolveLinks ytKey lookup parsedSongs)

/-- JavaScript truthiness of a nullable string: `null` and `""` are both
falsy. -/
def jsTruthyStr : Option String → Bool
  | none => false
  | some s => s ≠ ""

/-- Outcome of the create-playlist POST (App.jsx lines 517-541): a thrown
network failure, an ok response carrying the new playlist id, or a non-ok
response whose parsed error message is rethrown by line 536. -/
inductive CreateOutcome where
  | netThrow (msg : String)
  | okResp (playlistId : String) (title : String)
  | badResp (errMsg : String)
deriving DecidableEq

/-- Outcome of one add-playlist-item POST (App.jsx lines 572-595): a
thrown network failure, an ok response, or a non-ok response (warned and
skipped). -/
inductive AddOutcome where
  | netThrow (msg : String)
  | okResp
  | badResp (errMsg : String)
deriving DecidableEq

/-- `(adds i).isThrow` holds when the i-th add-item call throws rather
than returning an HTTP response. -/
def AddOutcome.isThrow : AddOutcome → Bool
  | .netThrow _ => true
  | _ => false

/-- `new URLSearchParams(new URL(link).search).get('v')` (App.jsx lines
550-551), specialised to links of the canonical shape the app itself
builds (`https://music.youtube.com/watch?v=<id>`). -/
def extractVideoId (link : String) : Option String :=
  if List.isPrefixOf "https://music.youtube.com/watch?v=".data link.data then
    some (String.mk (link.data.drop "https://music.youtube.com/watch?v=".data.length))
  else none

/-- Running tallies of step 2 of the publisher: the per-item warning
messages shown, the number of items successfully added, and the number of
selected entries fully processed by the loop. -/
structure PublishState where
  warnings : List String
  addedCount : Nat
  processed : Nat
deriving DecidableEq

/-- The observable outcome of one publish run. -/
inductive PublishOutcome where
  | precondNoSongs
  | precondNoAuth
  | precondKeyPlaceholder
  | createFailed (msg : String)
  | aborted (msg : String)
  | done (playlistId : String)
deriving DecidableEq

/-- The fail-fast notification texts of App.jsx lines 498, 502 and 506. -/
def precondMessage : PublishOutcome → Option String
  | .precondNoSongs =>
    some "Please select at least one song to create a YouTube Music playlist."
  | .precondNoAuth =>
    some "Please sign in with Google and authorize YouTube access to create a playlist."
  | .precondKeyPlaceholder =>
    some "Please ensure your YOUTUBE_API_KEY is set in the code to fetch video IDs for playlist creation."
  | _ => none

/-- The result of a publish run: its outcome, whether the create-playlist
network call was issued, and the step-2 tallies. -/
structure PublishResult where
  outcome : PublishOutcome
  createAttempted : Bool
  state : PublishState
deriving DecidableEq

/-- The per-item loop of step 2 (App.jsx lines 546-597): resolve a video
id (reusing a stored link, else searching, with its own search
try/catch), then add the item; a non-ok add response is warned and
skipped, but a thrown add call escapes to the outer catch, ending the loop
with `some msg`. -/
def publishItems (searches : Nat → YTSearchOutcome) (adds : Nat → AddOutcome) :
    Nat → List PlaylistEntry → PublishState → PublishState × Option String
  | _, [], st => (st, none)
  | i, song :: rest, st =>
    let sr : Option String × List String :=
      match song.youtubeLink with
      | some link => (extractVideoId link, [])
      | none =>
        match searches i with
        | .found vid => (some vid, [])
        | .notFound =>
          (none, ["Could not find video for \"" ++ song.artistName ++ " - " ++
            song.songTitle ++ "\". Skipping."])
        | .throw _ =>
          (none, ["Error searching for \"" ++ song.artistName ++ " - " ++
            song.songTitle ++ "\". Skipping."])
    let st1 : PublishState := ⟨st.warnings ++ sr.2, st.addedCount, st.processed⟩
    match sr.1 with
    | none =>
      publishItems searches adds (i + 1) rest ⟨st1.warnings, st1.addedCount, st1.processed + 1⟩
    | some _ =>
      match adds i with
      | .netThrow m => (st1, some m)
      | .okResp =>
        publishItems searches adds (i + 1) rest
          ⟨st1.warnings, st1.addedCount + 1, st1.processed + 1⟩
      | .badResp _ =>
        publishItems searches adds (i + 1) rest
          ⟨st1.warnings ++ ["Failed to add \"" ++ song.songTitle ++ "\" to playlist. Skipping."],
            st1.addedCount, st1.processed + 1⟩

/-- The `createYouTubeMusicPlaylist` flow (App.jsx lines 494-609): the
three fail-fast precondition checks of lines 497-508, then the
create-playlist call (step 1, terminal on failure), then the sequential
per-item loop (step 2).  `create`, `searches` and `adds` are the response
oracles for the three kinds of network exchange. -/
def createYouTubeMusicPlaylist (ytKey : String) (googleUser : Bool)
    (youtubeAccessToken : Option String) (playlist : List PlaylistEntry)
    (create : CreateOutcome) (searches : Nat → YTSearchOutcome) (adds : Nat → AddOutcome) :
    PublishResult :=
  let selectedSongs := playlist.filter (fun song => song.selected)
  if selectedSongs.length = 0 then
    ⟨.precondNoSongs, false, ⟨[], 0, 0⟩⟩
  else if googleUser = false ∨ jsTruthyStr youtubeAccessToken = false then
    ⟨.precondNoAuth, false, ⟨[], 0, 0⟩⟩
  else if ytKey = "YOUR_YOUTUBE_DATA_API_KEY_HERE" then
    ⟨.precondKeyPlaceholder, false, ⟨[], 0, 0⟩⟩
  else
    match create with
    | .netThrow m => ⟨.createFailed m, true, ⟨[], 0, 0⟩⟩
    | .badResp em => ⟨.createFailed ("Failed to create playlist: " ++ em), true, ⟨[], 0, 0⟩⟩
    | .okResp pid _ =>
      let r := publishItems searches adds 0 selectedSongs ⟨[], 0, 0⟩
      match r.2 with
      | some m => ⟨.aborted m, true, r.1⟩
      | none => ⟨.done pid, true, r.1⟩


/-- A concrete Ticketmaster event whose venue lacks a state code while
every other field is present. -/
def eventNoState : TMEvent :=
  { id := "E1", name := "The Examples",
    venue := some ⟨some "Civic Hall", some "Springfield", none⟩,
    localDate := some "2025-07-04", genreName := some "Rock",
    info := some "All ages.", url := none }

/-- A Ticketmaster event with every defaultable field missing. -/
def eventAllMissing : TMEvent :=
  { id := "E2", name := "Mystery Act", venue := none, localDate := none,
    genreName := none, info := none, url := none }

/-- Two concerts by two distinct artists. -/
def twoArtistConcerts : List ConcertRecord :=
  [{ id := "c1", artist := "Artist A", venue := "V1", date := "D1", genre := "Rock",
     location := "L1", description := "x", url := none },
   { id := "c2", artist := "Artist B", venue := "V2", date := "D2", genre := "Pop",
     location := "L2", description := "y", url := none }]

theorem checkRange_eq (p : Nat → Bool) (s : Nat) :
    ∀ len, checkRange p s len = true → ∀ k, k < len → p (s + k) = true := by
  intro len
  induction len with
  | zero => intro _ k hk; exact absurd hk (Nat.not_lt_zero k)
  | succ m ih =>
    intro h k hk
    have hstep : checkRange p s (m + 1) = (p (s + m) && checkRange p s m) := rfl
    rw [hstep, Bool.and_eq_true] at h
    rcases Nat.lt_succ_iff_lt_or_eq.mp hk with h' | rfl
    · exact ih h.2 k h'
    · exact h.1

theorem fN_mono_step (a : Nat) : fN a ≤ fN (a + 1) := by
  simp only [fN]
  omega

theorem fN_mono : Monotone fN := monotone_nat_of_le_succ fN_mono_step

set_option maxRecDepth 10000 in
theorem yearTable :
    checkRange (fun y => decide (fN (startN y) = y) && decide (fN (startN (y + 1) - 1) = y))
      0 400 = true := by rfl

theorem fN_top : fN 146096 = 399 := by rfl

theorem startN_step (y : Nat) : startN y + 365 ≤ startN (y + 1) ∧ startN (y + 1) ≤ startN y + 366 := by
  simp only [startN]
  omega

theorem yearEntry (y : Nat) (h : y < 400) :
    fN (startN y) = y ∧ fN (startN (y + 1) - 1) = y := by
  have := checkRange_eq _ 0 400 yearTable y h
  simp only [Nat.zero_add, Bool.and_eq_true, decide_eq_true_eq] at this
  exact this

theorem doyNatCore (a : Nat) (h : a ≤ 146096) :
    startN (fN a) ≤ a ∧ a ≤ startN (fN a) + 365 := by
  have hy : fN a ≤ 399 := by
    have := fN_mono h
    rw [fN_top] at this
    exact this
  constructor
  · by_contra hlt
    push_neg at hlt
    rcases Nat.eq_zero_or_pos (fN a) with h0 | h0
    · rw [h0] at hlt
      simp [startN] at hlt
    · have h1 := (yearEntry (fN a - 1) (by omega)).2
      have heq : fN a - 1 + 1 = fN a := by omega
      rw [heq] at h1
      have hle : a ≤ startN (fN a) - 1 := by omega
      have := fN_mono hle
      rw [h1] at this
      omega
  · by_contra hgt
    push_neg at hgt
    rcases Nat.lt_or_ge (fN a) 399 with h399 | h399
    · have h1 := (yearEntry (fN a + 1) (by omega)).1
      have hstep := startN_step (fN a)
      have hle : startN (fN a + 1) ≤ a := by omega
      have := fN_mono hle
      rw [h1] at this
      omega
    · have heq : fN a = 399 := Nat.le_antisymm hy h399
      rw [heq] at hgt
      have htop : startN 399 + 365 = 146096 := by rfl
      omega


theorem doyNat (a : Nat) (h : a < 146097) :
    365 * ((a - a / 1460 + a / 36524 - a / 146096) / 365)
      + ((a - a / 1460 + a / 36524 - a / 146096) / 365) / 4
      - ((a - a / 1460 + a / 36524 - a / 146096) / 365) / 100 ≤ a ∧
    a ≤ 365 * ((a - a / 1460 + a / 36524 - a / 146096) / 365)
      + ((a - a / 1460 + a / 36524 - a / 146096) / 365) / 4
      - ((a - a / 1460 + a / 36524 - a / 146096) / 365) / 100 + 365 := by
  have hc := doyNatCore a (by omega)
  simpa only [startN, fN] using hc

theorem doyInt (doe : Int) (h0 : 0 ≤ doe) (h1 : doe < 146097) :
    0 ≤ doe - (365 * ((doe - doe / 1460 + doe / 36524 - doe / 146096) / 365)
        + ((doe - doe / 1460 + doe / 36524 - doe / 146096) / 365) / 4
        - ((doe - doe / 1460 + doe / 36524 - doe / 146096) / 365) / 100) ∧
    doe - (365 * ((doe - doe / 1460 + doe / 36524 - doe / 146096) / 365)
        + ((doe - doe / 1460 + doe / 36524 - doe / 146096) / 365) / 4
        - ((doe - doe / 1460 + doe / 36524 - doe / 146096) / 365) / 100) ≤ 365 := by
  obtain ⟨n, rfl⟩ := Int.eq_ofNat_of_zero_le h0
  have hn : n < 146097 := by exact_mod_cast h1
  obtain ⟨hA, hB⟩ := doyNat n hn
  have gnum : (n : ℤ) - (n : ℤ) / 1460 + (n : ℤ) / 36524 - (n : ℤ) / 146096
      = ((n - n / 1460 + n / 36524 - n / 146096 : ℕ) : ℤ) := by omega
  have gY : ((n : ℤ) - (n : ℤ) / 1460 + (n : ℤ) / 36524 - (n : ℤ) / 146096) / 365
      = (((n - n / 1460 + n / 36524 - n / 146096) / 365 : ℕ) : ℤ) := by
    rw [gnum]; exact (Int.ofNat_ediv _ 365).symm
  rw [gY]
  omega

/-- `civilFromDays` is a right inverse of `daysFromCivil`: reading a day
number back from its civil fields returns the same day number. -/
theorem daysFromCivil_civilFromDays (z : Int) :
    daysFromCivil (civilFromDays z).year (civilFromDays z).month (civilFromDays z).day = z := by
  simp only [daysFromCivil, civilFromDays]
  generalize hdoe : z + 719468 - (z + 719468) / 146097 * 146097 = doe
  have hdoe0 : (0 : Int) ≤ doe := by omega
  have hdoe1 : doe < 146097 := by omega
  have hdoy := doyInt doe hdoe0 hdoe1
  generalize hY : (doe - doe / 1460 + doe / 36524 - doe / 146096) / 365 = Y at hdoy ⊢
  have hYb : 0 ≤ Y ∧ Y ≤ 399 := by omega
  generalize hmp : (5 * (doe - (365 * Y + Y / 4 - Y / 100)) + 2) / 153 = mp
  have hmpb : 0 ≤ mp ∧ mp ≤ 11 := by omega
  have hera : (Y + (z + 719468) / 146097 * 400) / 400 = (z + 719468) / 146097 := by omega
  split_ifs <;>
    (try simp only [add_sub_cancel_right, neg_add_cancel_right]) <;>
    (try rw [hera]) <;>
    (try simp only [add_sub_cancel_right]) <;>
    omega

theorem daysFromCivil_add (y m d n : Int) :
    daysFromCivil y m (d + n) = daysFromCivil y m d + n := by
  simp only [daysFromCivil]
  split_ifs <;> ring

theorem setDate_getDate_add (date : JSDate) (n : Int) :
    (date.setDate (date.getDate + n)).localMs = date.localMs + n * 86400000 := by
  have h1 := daysFromCivil_civilFromDays date.localDays
  have h2 := daysFromCivil_add date.civil.year date.civil.month date.civil.day n
  unfold JSDate.setDate JSDate.getDate
  simp only [JSDate.civil, JSDate.localDays, JSDate.localMs] at h1 h2 ⊢
  rw [h2, h1]
  omega

/-- `toIsoString` depends only on the whole-second part of the local
timestamp: milliseconds are truncated, not rounded. -/
theorem toIsoString_congr (d1 d2 : JSDate)
    (h : d1.localMs / 1000 = d2.localMs / 1000) : toIsoString d1 = toIsoString d2 := by
  have hdays : d1.localMs / 86400000 = d2.localMs / 86400000 := by omega
  have hh : d1.localMs / 3600000 % 24 = d2.localMs / 3600000 % 24 := by omega
  have hm : d1.localMs / 60000 % 60 = d2.localMs / 60000 % 60 := by omega
  have hs : d1.localMs / 1000 % 60 = d2.localMs / 1000 % 60 := by omega
  unfold toIsoString JSDate.getFullYear JSDate.getMonth JSDate.getDate JSDate.getHours
    JSDate.getMinutes JSDate.getSeconds JSDate.civil JSDate.localDays
  rw [hdays, hh, hm, hs]

theorem retryLoop_ok_attempt {α : Type} (w : Bool) (attempts : Nat → Attempt α) :
    ∀ rem i v ds, retryLoop w attempts i rem = (.ok v, ds) → ∃ j, attempts j = .ok v := by
  intro rem
  induction rem with
  | zero =>
    intro i v ds h
    rcases ha : attempts i with b | m <;> simp [retryLoop, ha] at h
    exact ⟨i, by rw [ha, h.1]⟩
  | succ rem ih =>
    intro i v ds h
    rcases ha : attempts i with b | m <;> simp [retryLoop, ha] at h
    · exact ⟨i, by rw [ha, h.1]⟩
    · obtain ⟨hfst, -⟩ := h
      obtain ⟨j, hj⟩ := ih (i + 1) v (retryLoop w attempts (i + 1) rem).2
        (by rw [← hfst])
      exact ⟨j, hj⟩


theorem tmUrlBase_size50 (apiKey : String) (enc : String → String) (numToStr : ℚ → String)
    (latitude longitude : ℚ) (searchRadius genre : String) :
    ∃ rest, tmUrlBase apiKey enc numToStr latitude longitude searchRadius genre
      = "https://app.ticketmaster.com/discovery/v2/events.json?apikey=" ++ apiKey ++
        "&size=50" ++ rest := by
  refine ⟨"&segmentName=Music" ++
    ((if latitude ≠ 0 ∧ longitude ≠ 0 then
        "&latlong=" ++ numToStr latitude ++ "," ++ numToStr longitude else "") ++
      ((if searchRadius ≠ "" then "&radius=" ++ enc searchRadius ++ "&unit=miles" else "") ++
        (if genre ≠ "" then "&keyword=" ++ enc genre else ""))), ?_⟩
  simp only [tmUrlBase]
  split_ifs <;> simp only [← String.append_assoc, String.append_empty, String.empty_append]

theorem resolveLinks_length (ytKey : String) (lookup : Nat → YTSearchOutcome)
    (songs : List SongPair) : (resolveLinks ytKey lookup songs).length = songs.length := by
  simp [resolveLinks]

theorem mem_jsSetDedup (a : String) : ∀ l : List String, a ∈ jsSetDedup l ↔ a ∈ l := by
  intro l
  induction l with
  | nil => simp [jsSetDedup]
  | cons x xs ih =>
    simp only [jsSetDedup, List.mem_cons, List.mem_filter, ih]
    by_cases hx : a = x <;> simp [hx]

theorem nodup_jsSetDedup : ∀ l : List String, (jsSetDedup l).Nodup := by
  intro l
  induction l with
  | nil => simp [jsSetDedup]
  | cons x xs ih =>
    simp only [jsSetDedup, List.nodup_cons]
    refine ⟨?_, ih.filter _⟩
    simp [List.mem_filter]

theorem length_jsSetDedup (l : List String) : (jsSetDedup l).length = l.toFinset.card := by
  have h1 : (jsSetDedup l).toFinset = l.toFinset := by
    ext a
    simp [List.mem_toFinset, mem_jsSetDedup]
  calc (jsSetDedup l).length = (jsSetDedup l).toFinset.card :=
        (List.toFinset_card_of_nodup (nodup_jsSetDedup l)).symm
    _ = l.toFinset.card := by rw [h1]


theorem publishItems_no_throw (searches : Nat → YTSearchOutcome) (adds : Nat → AddOutcome)
    (hadd : ∀ i, (adds i).isThrow = false) :
    ∀ (songs : List PlaylistEntry) (i : Nat) (st : PublishState),
      (publishItems searches adds i songs st).2 = none ∧
      (publishItems searches adds i songs st).1.processed = st.processed + songs.length := by
  intro songs
  induction songs with
  | nil => intro i st; simp [publishItems]
  | cons song rest ih =>
    intro i st
    have ha := hadd i
    have step : ∀ (w : List String) (a : Nat),
        (publishItems searches adds (i + 1) rest ⟨w, a, st.processed + 1⟩).2 = none ∧
        (publishItems searches adds (i + 1) rest ⟨w, a, st.processed + 1⟩).1.processed
          = st.processed + (rest.length + 1) := by
      intro w a
      obtain ⟨h1, h2⟩ := ih (i + 1) ⟨w, a, st.processed + 1⟩
      refine ⟨h1, ?_⟩
      rw [h2]
      show st.processed + 1 + rest.length = st.processed + (rest.length + 1)
      omega
    rcases hyl : song.youtubeLink with _ | link
    · rcases hsi : searches i with m | vid | _
      · simp only [publishItems, hyl, hsi, List.length_cons]
        exact step _ _
      · rcases hai : adds i with m | _ | em
        · rw [hai] at ha
          simp [AddOutcome.isThrow] at ha
        · simp only [publishItems, hyl, hsi, hai, List.length_cons]
          exact step _ _
        · simp only [publishItems, hyl, hsi, hai, List.length_cons]
          exact step _ _
      · simp only [publishItems, hyl, hsi, List.length_cons]
        exact step _ _
    · rcases hev : extractVideoId link with _ | vid
      · simp only [publishItems, hyl, hev, List.length_cons]
        exact step _ _
      · rcases hai : adds i with m | _ | em
        · rw [hai] at ha
          simp [AddOutcome.isThrow] at ha
        · simp only [publishItems, hyl, hev, hai, List.length_cons]
          exact step _ _
        · simp only [publishItems, hyl, hev, hai, List.length_cons]
          exact step _ _

/-- C2: every call through the retry wrapper is attempted up to `MAX_RETRIES + 1 = 3` times; success at any attempt returns immediately with the processed body and incurs no further delay, each failed attempt number n is followed by a wait of 1000·n ms before the next attempt, and after exhaustion a terminal error carrying the message of the last failure is returned (the Ticketmaster variant also sleeps once more after the final failure). -/
theorem retry_wrapper_spec {α : Type} (w : Bool) (attempts : Nat → Attempt α) :
    (∀ b, attempts 0 = .ok b →
      retryLoop w attempts 0 MAX_RETRIES = (.ok b, [])) ∧
    (∀ m0 b, attempts 0 = .fail m0 → attempts 1 = .ok b →
      retryLoop w attempts 0 MAX_RETRIES = (.ok b, [1000])) ∧
    (∀ m0 m1 b, attempts 0 = .fail m0 → attempts 1 = .fail m1 → attempts 2 = .ok b →
      retryLoop w attempts 0 MAX_RETRIES = (.ok b, [1000, 2000])) ∧
    (∀ m0 m1 m2, attempts 0 = .fail m0 → attempts 1 = .fail m1 → attempts 2 = .fail m2 →
      retryLoop w attempts 0 MAX_RETRIES
        = (.error m2, if w then [1000, 2000, 3000] else [1000, 2000])) := by
  refine ⟨?_, ?_, ?_, ?_⟩
  · intro b h0
    simp [retryLoop, MAX_RETRIES, h0]
  · intro m0 b h0 h1
    simp [retryLoop, MAX_RETRIES, h0, h1]
  · intro m0 m1 b h0 h1 h2
    simp [retryLoop, MAX_RETRIES, h0, h1, h2]
  · intro m0 m1 m2 h0 h1 h2
    cases w <;> simp [retryLoop, MAX_RETRIES, h0, h1, h2]

/-- C2 witness: a first-attempt failure followed by a second-attempt success returns the body after a single 1000 ms backoff. -/
theorem retry_wrapper_spec_witness :
    retryLoop true (fun i => if i = 0 then Attempt.fail "boom" else Attempt.ok 7) 0 MAX_RETRIES
      = (.ok 7, [1000]) :=
  (retry_wrapper_spec true
    (fun i => if i = 0 then Attempt.fail "boom" else Attempt.ok 7)).2.1 "boom" 7 rfl rfl

/-- C3 (amended): for date windows 30, 60 and 90 days, with the two clock reads coinciding, the event-search URL carries startDateTime and endDateTime rendered by `toIsoString` from the runtime-local civil time with a literal Z suffix; the instant formatted into endDateTime lies exactly dateWindowDays whole days (in seconds, milliseconds truncated) after the one formatted into startDateTime, and the rendering equals the true UTC timestamp exactly when the local offset is zero. -/
theorem dateWindow_params (dateFilter : String) (n t off : Int)
    (apiKey : String) (enc : String → String) (numToStr : ℚ → String)
    (latitude longitude : ℚ) (searchRadius genre : String)
    (h : (dateFilter, n) = ("30", 30) ∨ (dateFilter, n) = ("60", 60) ∨
      (dateFilter, n) = ("90", 90)) :
    ∃ pre : String,
      buildTicketmasterUrl apiKey enc numToStr latitude longitude searchRadius genre
          dateFilter t t off
        = pre ++ "&startDateTime=" ++ toIsoString { t := t, off := off }
            ++ "&endDateTime="
            ++ toIsoString (JSDate.setDate { t := t, off := off }
                (JSDate.getDate { t := t, off := off } + n)) ∧
      (JSDate.setDate { t := t, off := off }
          (JSDate.getDate { t := t, off := off } + n)).localMs
        = JSDate.localMs { t := t, off := off } + n * 86400000 ∧
      (JSDate.setDate { t := t, off := off }
          (JSDate.getDate { t := t, off := off } + n)).localMs / 1000
        - JSDate.localMs { t := t, off := off } / 1000 = n * 86400 ∧
      (off = 0 →
        toIsoString { t := t, off := off } = specUtcTimestamp t ∧
        toIsoString (JSDate.setDate { t := t, off := off }
            (JSDate.getDate { t := t, off := off } + n))
          = specUtcTimestamp (t + n * 86400000)) := by
  have hms := setDate_getDate_add { t := t, off := off } n
  have hdiv : (JSDate.setDate { t := t, off := off }
      (JSDate.getDate { t := t, off := off } + n)).localMs / 1000
      - JSDate.localMs { t := t, off := off } / 1000 = n * 86400 := by
    rw [hms]; omega
  have hutc : off = 0 →
      toIsoString { t := t, off := off } = specUtcTimestamp t ∧
      toIsoString (JSDate.setDate { t := t, off := off }
          (JSDate.getDate { t := t, off := off } + n))
        = specUtcTimestamp (t + n * 86400000) := by
    rintro rfl
    refine ⟨rfl, ?_⟩
    apply toIsoString_congr
    rw [hms]
    simp [JSDate.localMs]
  refine ⟨tmUrlBase apiKey enc numToStr latitude longitude searchRadius genre, ?_, hms, hdiv, hutc⟩
  rcases h with h | h | h <;> rw [Prod.mk.injEq] at h <;> obtain ⟨rfl, rfl⟩ := h <;>
    simp [buildTicketmasterUrl, dateFilterFragment, String.append_assoc]

/-- C3 counterexample: at instant 0 in a UTC-5 runtime, the request fragment carries startDateTime 1969-12-31T19:00:00Z, which is not the UTC timestamp 1970-01-01T00:00:00Z of that instant: `toIsoString` formats local time and merely appends a Z. -/
theorem dateWindow_not_utc :
    dateFilterFragment "30" 0 0 (-300)
      = "&startDateTime=1969-12-31T19:00:00Z&endDateTime=1970-01-30T19:00:00Z" ∧
    specUtcTimestamp 0 = "1970-01-01T00:00:00Z" ∧
    toIsoString { t := 0, off := -300 } ≠ specUtcTimestamp 0 := by
  refine ⟨by decide, by decide, by decide⟩

/-- C3 witness: the 60-day window at a concrete instant and offset. -/
theorem dateWindow_params_witness :
    ∃ pre : String,
      buildTicketmasterUrl "K" id (fun _ => "q") 34 (-81) "50" "Rock" "60"
          123456789 123456789 (-300)
        = pre ++ "&startDateTime=" ++ toIsoString { t := 123456789, off := -300 }
            ++ "&endDateTime="
            ++ toIsoString (JSDate.setDate { t := 123456789, off := -300 }
                (JSDate.getDate { t := 123456789, off := -300 } + 60)) ∧
      (JSDate.setDate { t := 123456789, off := -300 }
          (JSDate.getDate { t := 123456789, off := -300 } + 60)).localMs
        = JSDate.localMs { t := 123456789, off := -300 } + 60 * 86400000 ∧
      (JSDate.setDate { t := 123456789, off := -300 }
          (JSDate.getDate { t := 123456789, off := -300 } + 60)).localMs / 1000
        - JSDate.localMs { t := 123456789, off := -300 } / 1000 = 60 * 86400 ∧
      ((-300 : Int) = 0 →
        toIsoString { t := 123456789, off := -300 } = specUtcTimestamp 123456789 ∧
        toIsoString (JSDate.setDate { t := 123456789, off := -300 }
            (JSDate.getDate { t := 123456789, off := -300 } + 60))
          = specUtcTimestamp (123456789 + 60 * 86400000)) :=
  dateWindow_params "60" 60 123456789 (-300) "K" id (fun _ => "q") 34 (-81) "50" "Rock"
    (Or.inr (Or.inl rfl))

/-- C4 (amended): missing venue/city/date/genre/description fields are replaced by the literal placeholders "Unknown Venue", "Unknown City", "Date TBD", "Various", "No additional info available."; a missing state becomes the empty string and the location omits the state suffix. -/
theorem normalize_defaults (event : TMEvent)
    (hv : event.venue.bind TMVenue.name = none)
    (hc : event.venue.bind TMVenue.cityName = none)
    (hs : event.venue.bind TMVenue.stateCode = none)
    (hd : event.localDate = none) (hg : event.genreName = none) (hi : event.info = none) :
    (normalizeEvent event).venue = "Unknown Venue" ∧
    (normalizeEvent event).location = "Unknown City" ∧
    venueStateCodeOf event = "" ∧
    (normalizeEvent event).date = "Date TBD" ∧
    (normalizeEvent event).genre = "Various" ∧
    (normalizeEvent event).description = "No additional info available." := by
  simp [normalizeEvent, venueStateCodeOf, orDefault, hv, hc, hs, hd, hg, hi]

/-- C4 counterexample: an event lacking only the venue state is normalized to an empty state code and a location without any placeholder; "Date TBD" is the default of the date field, not of the state, refuting the claimed field-to-placeholder mapping. -/
theorem missing_state_not_placeholder :
    venueStateCodeOf eventNoState = "" ∧
    (normalizeEvent eventNoState).location = "Springfield" ∧
    (normalizeEvent eventNoState).date = "2025-07-04" ∧
    ("" : String) ≠ "Date TBD" := by
  refine ⟨by rfl, by rfl, by rfl, by decide⟩

/-- C4 witness: an event with every defaultable field missing receives all five placeholders. -/
theorem normalize_defaults_witness :
    (normalizeEvent eventAllMissing).venue = "Unknown Venue" ∧
    (normalizeEvent eventAllMissing).location = "Unknown City" ∧
    venueStateCodeOf eventAllMissing = "" ∧
    (normalizeEvent eventAllMissing).date = "Date TBD" ∧
    (normalizeEvent eventAllMissing).genre = "Various" ∧
    (normalizeEvent eventAllMissing).description = "No additional info available." :=
  normalize_defaults eventAllMissing rfl rfl rfl rfl rfl rfl

/-- C5 (amended): a well-formed geocoding response with zero results is thrown inside the try-block and therefore retried under the same bounded backoff policy as a network failure; if every attempt returns zero results, geocoding fails after 3 attempts with the user-facing not-found message, while a first-attempt response with results succeeds immediately with the first geometry and no retries. -/
theorem geocode_zero_results_spec (city : String) (responses okResponses : Nat → OCResponse)
    (g : Geometry) (gs : List Geometry)
    (hz : ∀ i, i ≤ MAX_RETRIES → responses i = .okJson [])
    (hok : okResponses 0 = .okJson (g :: gs)) :
    geocodePhase city responses
      = (.error ("Failed to get location coordinates after " ++ toString (MAX_RETRIES + 1) ++
          " attempts: " ++ ("Could not find coordinates for \"" ++ city ++ "\".") ++
          ". Please check your OpenCage API key and network connection."),
         [1000, 2000]) ∧
    geocodePhase city okResponses = (.ok (g.lat, g.lng), []) := by
  have h0 := hz 0 (by decide)
  have h1 := hz 1 (by decide)
  have h2 := hz 2 (by decide)
  constructor
  · simp [geocodePhase, opencageRetry, retryLoop, MAX_RETRIES, opencageProcess, h0, h1, h2]
  · simp [geocodePhase, opencageRetry, retryLoop, MAX_RETRIES, opencageProcess, hok]

/-- C5 counterexample: zero-result responses on all attempts incur the same backoff delays [1000, 2000] as network failures, refuting the claim that only transient network failures are subject to the bounded retry policy. -/
theorem geocode_zero_results_retried :
    geocodePhase "Atlantis" (fun _ => OCResponse.okJson [])
      = (.error ("Failed to get location coordinates after " ++ toString (MAX_RETRIES + 1) ++
          " attempts: " ++ ("Could not find coordinates for \"" ++ "Atlantis" ++ "\".") ++
          ". Please check your OpenCage API key and network connection."),
         [1000, 2000]) ∧
    (geocodePhase "Atlantis" (fun _ => OCResponse.okJson [])).2
      = (geocodePhase "Atlantis" (fun _ => OCResponse.netThrow "TypeError: Failed to fetch")).2 := by
  refine ⟨by rfl, by rfl⟩

/-- C5 witness: concrete oracles for the all-empty and first-try-success runs. -/
theorem geocode_zero_results_spec_witness :
    geocodePhase "Nowhere" (fun _ => OCResponse.okJson [])
      = (.error ("Failed to get location coordinates after " ++ toString (MAX_RETRIES + 1) ++
          " attempts: " ++ ("Could not find coordinates for \"" ++ "Nowhere" ++ "\".") ++
          ". Please check your OpenCage API key and network connection."),
         [1000, 2000]) ∧
    geocodePhase "Nowhere" (fun _ => OCResponse.okJson [⟨35, -82⟩])
      = (.ok ((35 : ℚ), (-82 : ℚ)), []) :=
  geocode_zero_results_spec "Nowhere" (fun _ => OCResponse.okJson [])
    (fun _ => OCResponse.okJson [⟨35, -82⟩]) ⟨35, -82⟩ []
    (fun _ _ => rfl) rfl

/-- C6: the step-2 video lookups are isolated — the produced playlist has one entry per step-1 pair with artist and title in the same order, every entry has selected = true, and changing the lookup outcome at one position only affects the entry at that position. -/
theorem resolveLinks_isolated (ytKey : String) (lookup lookup2 : Nat → YTSearchOutcome)
    (songs : List SongPair) :
    (resolveLinks ytKey lookup songs).length = songs.length ∧
    (resolveLinks ytKey lookup songs).map (fun e => (e.artistName, e.songTitle))
      = songs.map (fun s => (s.artistName, s.songTitle)) ∧
    (∀ e ∈ resolveLinks ytKey lookup songs, e.selected = true) ∧
    (∀ i, lookup i = lookup2 i →
      (resolveLinks ytKey lookup songs)[i]? = (resolveLinks ytKey lookup2 songs)[i]?) := by
  refine ⟨resolveLinks_length ytKey lookup songs, ?_, ?_, ?_⟩
  · have hcomp : ((fun e : PlaylistEntry => (e.artistName, e.songTitle)) ∘
        fun p : Nat × SongPair => resolveSong ytKey (lookup p.1) p.2)
        = (fun s : SongPair => (s.artistName, s.songTitle)) ∘ Prod.snd := by
      funext p
      simp [resolveSong]
    rw [resolveLinks, List.map_map, hcomp, ← List.map_map, List.enum_map_snd]
  · intro e he
    simp only [resolveLinks, List.mem_map] at he
    obtain ⟨p, -, rfl⟩ := he
    simp [resolveSong]
  · intro i h
    simp only [resolveLinks, List.getElem?_map, List.getElem?_enum]
    cases songs[i]? <;> simp [h]

/-- C6 witness: two songs whose lookups agree at position 0 produce the same first entry even though the lookups differ at position 1. -/
theorem resolveLinks_isolated_witness :
    (resolveLinks "K" (fun i => if i = 0 then YTSearchOutcome.found "v0" else .notFound)
      [⟨"A", "S1"⟩, ⟨"B", "S2"⟩]).length = 2 ∧
    (resolveLinks "K" (fun i => if i = 0 then YTSearchOutcome.found "v0" else .notFound)
      [⟨"A", "S1"⟩, ⟨"B", "S2"⟩])[0]?
      = (resolveLinks "K" (fun i => if i = 0 then YTSearchOutcome.found "v0" else .throw "net")
        [⟨"A", "S1"⟩, ⟨"B", "S2"⟩])[0]? :=
  ⟨(resolveLinks_isolated "K" (fun i => if i = 0 then YTSearchOutcome.found "v0" else .notFound)
      (fun i => if i = 0 then YTSearchOutcome.found "v0" else .throw "net")
      [⟨"A", "S1"⟩, ⟨"B", "S2"⟩]).1,
    (resolveLinks_isolated "K" (fun i => if i = 0 then YTSearchOutcome.found "v0" else .notFound)
      (fun i => if i = 0 then YTSearchOutcome.found "v0" else .throw "net")
      [⟨"A", "S1"⟩, ⟨"B", "S2"⟩]).2.2.2 0 rfl⟩

/-- C7 (amended): the playlist size equals the number of pairs the generative provider returned; when the provider returns exactly one pair per distinct artist, the size equals the number of distinct artist names in the current concert set, not the number of concerts. -/
theorem playlist_size_spec (ytKey : String) (concerts : List ConcertRecord)
    (pairs : List SongPair) (lookup : Nat → YTSearchOutcome)
    (hc : concerts ≠ [])
    (hlen : pairs.length = (concerts.map ConcertRecord.artist).toFinset.card) :
    generatePlaylistFromConcerts ytKey concerts (some pairs) lookup
      = some (resolveLinks ytKey lookup pairs) ∧
    (resolveLinks ytKey lookup pairs).length
      = (concerts.map ConcertRecord.artist).toFinset.card := by
  have h1 : ¬concerts.length = 0 := by
    simpa [List.length_eq_zero] using hc
  have h2 : ¬(jsSetDedup (concerts.map ConcertRecord.artist)).length = 0 := by
    rw [length_jsSetDedup]
    rcases concerts with _ | ⟨c, cs⟩
    · exact absurd rfl hc
    · simp [Finset.card_eq_zero]
  refine ⟨?_, ?_⟩
  · simp [generatePlaylistFromConcerts, h1, h2]
  · rw [resolveLinks_length, hlen]

/-- C7 counterexample: two concerts by two distinct artists with the provider returning a single pair yield a playlist of size 1, not 2: the response size is not enforced against the artist count. -/
theorem playlist_size_counterexample :
    (generatePlaylistFromConcerts "K" twoArtistConcerts
        (some [⟨"Artist A", "Song"⟩]) (fun _ => YTSearchOutcome.notFound)).map List.length
      = some 1 ∧
    (twoArtistConcerts.map ConcertRecord.artist).toFinset.card = 2 ∧
    (1 : Nat) ≠ 2 := by
  refine ⟨by rfl, by decide, by decide⟩

/-- C7 witness: a compliant two-pair response for two distinct artists. -/
theorem playlist_size_spec_witness :
    generatePlaylistFromConcerts "K" twoArtistConcerts
        (some [⟨"Artist A", "S1"⟩, ⟨"Artist B", "S2"⟩]) (fun _ => YTSearchOutcome.notFound)
      = some (resolveLinks "K" (fun _ => YTSearchOutcome.notFound)
          [⟨"Artist A", "S1"⟩, ⟨"Artist B", "S2"⟩]) ∧
    (resolveLinks "K" (fun _ => YTSearchOutcome.notFound)
        [⟨"Artist A", "S1"⟩, ⟨"Artist B", "S2"⟩]).length
      = (twoArtistConcerts.map ConcertRecord.artist).toFinset.card :=
  playlist_size_spec "K" twoArtistConcerts [⟨"Artist A", "S1"⟩, ⟨"Artist B", "S2"⟩]
    (fun _ => YTSearchOutcome.notFound) (by decide) (by decide)

/-- C8 (amended): each of the three precondition checks — a selected entry exists, a signed-in user with a truthy bearer token, and a key different from the literal placeholder "YOUR_YOUTUBE_DATA_API_KEY_HERE" — fails fast with its own distinct message, before the create call is issued and with no items processed. -/
theorem publish_preconditions (ytKey : String) (googleUser : Bool) (token : Option String)
    (playlist : List PlaylistEntry) (create : CreateOutcome)
    (searches : Nat → YTSearchOutcome) (adds : Nat → AddOutcome) :
    ((playlist.filter (fun song => song.selected)).length = 0 →
      createYouTubeMusicPlaylist ytKey googleUser token playlist create searches adds
        = ⟨.precondNoSongs, false, ⟨[], 0, 0⟩⟩) ∧
    ((playlist.filter (fun song => song.selected)).length ≠ 0 →
      (googleUser = false ∨ jsTruthyStr token = false) →
      createYouTubeMusicPlaylist ytKey googleUser token playlist create searches adds
        = ⟨.precondNoAuth, false, ⟨[], 0, 0⟩⟩) ∧
    ((playlist.filter (fun song => song.selected)).length ≠ 0 →
      ¬(googleUser = false ∨ jsTruthyStr token = false) →
      ytKey = "YOUR_YOUTUBE_DATA_API_KEY_HERE" →
      createYouTubeMusicPlaylist ytKey googleUser token playlist create searches adds
        = ⟨.precondKeyPlaceholder, false, ⟨[], 0, 0⟩⟩) ∧
    (precondMessage .precondNoSongs ≠ precondMessage .precondNoAuth ∧
      precondMessage .precondNoSongs ≠ precondMessage .precondKeyPlaceholder ∧
      precondMessage .precondNoAuth ≠ precondMessage .precondKeyPlaceholder) := by
  refine ⟨?_, ?_, ?_, by decide⟩
  · intro h
    simp [createYouTubeMusicPlaylist, h]
  · intro h1 h2
    simp [createYouTubeMusicPlaylist, h1, h2]
  · intro h1 h2 h3
    simp [createYouTubeMusicPlaylist, h1, h2, h3]

/-- C8 counterexample: an empty, unconfigured video-provider key passes the precondition check (which only rejects the literal placeholder), so the publisher proceeds to create the playlist instead of failing fast. -/
theorem empty_key_passes_precondition :
    createYouTubeMusicPlaylist "" true (some "tok")
        [⟨"A", "S", true, some "https://music.youtube.com/watch?v=vid1"⟩]
        (.okResp "PL1" "T") (fun _ => YTSearchOutcome.notFound) (fun _ => AddOutcome.okResp)
      = ⟨.done "PL1", true, ⟨[], 1, 1⟩⟩ ∧
    ("" : String) ≠ "YOUR_YOUTUBE_DATA_API_KEY_HERE" ∧
    PublishOutcome.done "PL1" ≠ .precondKeyPlaceholder := by
  refine ⟨by rfl, by decide, by decide⟩

/-- C8 witness: a missing credential fails fast with the distinct sign-in message. -/
theorem publish_preconditions_witness :
    createYouTubeMusicPlaylist "K" false none [⟨"A", "S", true, none⟩]
        (.okResp "P" "T") (fun _ => YTSearchOutcome.notFound) (fun _ => AddOutcome.okResp)
      = ⟨.precondNoAuth, false, ⟨[], 0, 0⟩⟩ ∧
    precondMessage .precondNoSongs ≠ precondMessage .precondNoAuth :=
  ⟨(publish_preconditions "K" false none [⟨"A", "S", true, none⟩]
      (.okResp "P" "T") (fun _ => YTSearchOutcome.notFound) (fun _ => AddOutcome.okResp)).2.1
      (by decide) (Or.inl rfl),
    (publish_preconditions "K" false none [⟨"A", "S", true, none⟩]
      (.okResp "P" "T") (fun _ => YTSearchOutcome.notFound) (fun _ => AddOutcome.okResp)).2.2.2.1⟩

/-- C9: a geocoding response whose first result has latitude 0 or longitude 0 makes the search abort with the coordinate-failure message, and the event-search request is never issued, because the guard tests JavaScript falsiness rather than absence. -/
theorem zero_coordinate_aborts (tmKey ocKey city : String) (enc : String → String)
    (numToStr : ℚ → String) (searchRadius genre dateFilter : String) (now1 now2 off : Int)
    (oc1 oc2 : Nat → OCResponse) (tm : Nat → TMResponse)
    (lat lng : ℚ) (gs1 gs2 : List Geometry)
    (h1 : tmKey ≠ "") (h2 : ocKey ≠ "") (h3 : city ≠ "")
    (hz1 : oc1 0 = OCResponse.okJson (⟨0, lng⟩ :: gs1))
    (hz2 : oc2 0 = OCResponse.okJson (⟨lat, 0⟩ :: gs2)) :
    fetchConcerts tmKey ocKey city enc numToStr searchRadius genre dateFilter now1 now2 off
        oc1 tm
      = { concerts := [],
          error := "Failed to get location coordinates for \"" ++ city ++
            "\". Please try a more specific city name.",
          tmUrl := none, ocDelays := [], tmDelays := [] } ∧
    fetchConcerts tmKey ocKey city enc numToStr searchRadius genre dateFilter now1 now2 off
        oc2 tm
      = { concerts := [],
          error := "Failed to get location coordinates for \"" ++ city ++
            "\". Please try a more specific city name.",
          tmUrl := none, ocDelays := [], tmDelays := [] } := by
  constructor <;>
    simp [fetchConcerts, h1, h2, h3, geocodePhase, opencageRetry, retryLoop, MAX_RETRIES,
      opencageProcess, hz1, hz2]

/-- C9 witness: both zero-latitude and zero-longitude first results abort a concrete search. -/
theorem zero_coordinate_aborts_witness :
    fetchConcerts "TK" "OK" "Quito" id (fun _ => "n") "50" "" "" 0 0 0
        (fun _ => OCResponse.okJson [⟨0, -78⟩]) (fun _ => TMResponse.okJson none)
      = { concerts := [],
          error := "Failed to get location coordinates for \"" ++ "Quito" ++
            "\". Please try a more specific city name.",
          tmUrl := none, ocDelays := [], tmDelays := [] } ∧
    fetchConcerts "TK" "OK" "Quito" id (fun _ => "n") "50" "" "" 0 0 0
        (fun _ => OCResponse.okJson [⟨-1/2, 0⟩]) (fun _ => TMResponse.okJson none)
      = { concerts := [],
          error := "Failed to get location coordinates for \"" ++ "Quito" ++
            "\". Please try a more specific city name.",
          tmUrl := none, ocDelays := [], tmDelays := [] } :=
  zero_coordinate_aborts "TK" "OK" "Quito" id (fun _ => "n") "50" "" "" 0 0 0
    (fun _ => OCResponse.okJson [⟨0, -78⟩]) (fun _ => OCResponse.okJson [⟨-1/2, 0⟩])
    (fun _ => TMResponse.okJson none) (-1/2) (-78) [] []
    (by decide) (by decide) (by decide) rfl rfl

/-- C10: every issued event-search URL begins with the events endpoint followed by the api key and the fixed size=50 parameter, and if the provider honours the size bound (each returned page holds at most 50 events) the resulting concert list never exceeds 50 records. -/
theorem tm_request_size50 (tmKey ocKey city : String) (enc : String → String)
    (numToStr : ℚ → String) (searchRadius genre dateFilter : String) (now1 now2 off : Int)
    (oc : Nat → OCResponse) (tm : Nat → TMResponse) :
    (∀ url, (fetchConcerts tmKey ocKey city enc numToStr searchRadius genre dateFilter
        now1 now2 off oc tm).tmUrl = some url →
      ∃ rest, url = "https://app.ticketmaster.com/discovery/v2/events.json?apikey=" ++ tmKey ++
        "&size=50" ++ rest) ∧
    ((∀ i evs, tm i = TMResponse.okJson (some evs) → evs.length ≤ 50) →
      (fetchConcerts tmKey ocKey city enc numToStr searchRadius genre dateFilter
        now1 now2 off oc tm).concerts.length ≤ 50) := by
  constructor
  · intro url hurl
    unfold fetchConcerts at hurl
    split_ifs at hurl <;> try simp_all
    rcases hg : (geocodePhase city oc).1 with m | c
    · rw [hg] at hurl; simp at hurl
    · rw [hg] at hurl
      rcases c with ⟨la, ln⟩
      by_cases hz : la = 0 ∨ ln = 0
      · simp [hz] at hurl
      · simp only [hz, if_false] at hurl
        obtain ⟨r, hr⟩ := tmUrlBase_size50 tmKey enc numToStr la ln searchRadius genre
        rcases htm : (ticketmasterRetry fun i => ticketmasterProcess (tm i)).1 with m | s
        · rw [htm] at hurl
          simp at hurl
          exact ⟨r ++ dateFilterFragment dateFilter now1 now2 off,
            by rw [← hurl, buildTicketmasterUrl, hr]; simp [String.append_assoc]⟩
        · rcases s with recs | _ <;> rw [htm] at hurl <;> simp at hurl <;>
            exact ⟨r ++ dateFilterFragment dateFilter now1 now2 off,
              by rw [← hurl, buildTicketmasterUrl, hr]; simp [String.append_assoc]⟩
  · intro hbound
    unfold fetchConcerts
    split_ifs <;> try simp
    rcases hg : (geocodePhase city oc).1 with m | c
    · simp
    · rcases c with ⟨la, ln⟩
      by_cases hz : la = 0 ∨ ln = 0
      · simp [hz]
      · simp only [hz, if_false]
        rcases htm : (ticketmasterRetry fun i => ticketmasterProcess (tm i)).1 with m | s
        · simp
        · rcases s with recs | _
          · simp only
            obtain ⟨j, hj⟩ := retryLoop_ok_attempt true (fun i => ticketmasterProcess (tm i))
              MAX_RETRIES 0 (TMSuccess.events recs)
              (ticketmasterRetry fun i => ticketmasterProcess (tm i)).2
              (by rw [← htm]; exact Prod.mk.eta.symm)
            rcases hr : tm j with m | st | oev <;> rw [hr] at hj <;>
              simp [ticketmasterProcess] at hj
            rcases oev with _ | evs
            · simp [ticketmasterProcess] at hj
            · simp [ticketmasterProcess] at hj
              rw [← hj]
              simpa using hbound j evs (by rw [hr])
          · simp

/-- C10 witness: a concrete successful search whose URL carries size=50 and whose result is within the bound. -/
theorem tm_request_size50_witness :
    (∃ rest, buildTicketmasterUrl "TK" id (fun _ => "n") 34 (-81) "50" "" "" 0 0 0
      = "https://app.ticketmaster.com/discovery/v2/events.json?apikey=" ++ "TK" ++
        "&size=50" ++ rest) ∧
    (fetchConcerts "TK" "OK" "Q" id (fun _ => "n") "50" "" "" 0 0 0
      (fun _ => OCResponse.okJson [⟨34, -81⟩])
      (fun _ => TMResponse.okJson (some []))).concerts.length ≤ 50 :=
  ⟨(tm_request_size50 "TK" "OK" "Q" id (fun _ => "n") "50" "" "" 0 0 0
      (fun _ => OCResponse.okJson [⟨34, -81⟩]) (fun _ => TMResponse.okJson (some []))).1
      (buildTicketmasterUrl "TK" id (fun _ => "n") 34 (-81) "50" "" "" 0 0 0) rfl,
    (tm_request_size50 "TK" "OK" "Q" id (fun _ => "n") "50" "" "" 0 0 0
      (fun _ => OCResponse.okJson [⟨34, -81⟩]) (fun _ => TMResponse.okJson (some []))).2
      (by intro i evs h
          simp only [TMResponse.okJson.injEq, Option.some.injEq] at h
          rw [← h]
          decide)⟩

/-- C1 (amended): if the remote playlist creation succeeds and no add-item call throws at the network level, the publisher reports the created playlist handle and processes every selected entry; an item whose video id cannot be resolved, or whose add-item call returns a non-success status, only contributes a per-item warning and does not abort the loop. -/
theorem publish_item_failures_tolerated (ytKey : String) (token : Option String)
    (playlist : List PlaylistEntry) (pid title : String)
    (searches : Nat → YTSearchOutcome) (adds : Nat → AddOutcome)
    (hsel : (playlist.filter (fun song => song.selected)).length ≠ 0)
    (htok : jsTruthyStr token = true)
    (hkey : ytKey ≠ "YOUR_YOUTUBE_DATA_API_KEY_HERE")
    (hadd : ∀ i, (adds i).isThrow = false) :
    (createYouTubeMusicPlaylist ytKey true token playlist
        (.okResp pid title) searches adds).outcome = .done pid ∧
    (createYouTubeMusicPlaylist ytKey true token playlist
        (.okResp pid title) searches adds).state.processed
      = (playlist.filter (fun song => song.selected)).length := by
  have hr := publishItems_no_throw searches adds hadd
    (playlist.filter (fun song => song.selected)) 0 ⟨[], 0, 0⟩
  have hauth : ¬(true = false ∨ jsTruthyStr token = false) := by simp [htok]
  constructor <;>
    simp [createYouTubeMusicPlaylist, hsel, htok, hkey, hr.1, hr.2]

/-- C1 counterexample: with playlist creation succeeding and the first add-item call throwing a network error, the publisher aborts without processing the remaining entry and without reporting the playlist handle, refuting the claim that an erroring add-item call never aborts the loop. -/
theorem publish_addItem_throw_aborts :
    createYouTubeMusicPlaylist "K" true (some "tok")
        [⟨"A", "S1", true, some "https://music.youtube.com/watch?v=v1"⟩,
         ⟨"B", "S2", true, some "https://music.youtube.com/watch?v=v2"⟩]
        (.okResp "PL9" "T") (fun _ => YTSearchOutcome.notFound)
        (fun _ => AddOutcome.netThrow "TypeError: Failed to fetch")
      = ⟨.aborted "TypeError: Failed to fetch", true, ⟨[], 0, 0⟩⟩ ∧
    PublishOutcome.aborted "TypeError: Failed to fetch" ≠ .done "PL9" ∧
    (0 : Nat) ≠ 2 := by
  refine ⟨by decide, by decide, by decide⟩

/-- C1 witness: the best-effort scenario of the spec — three selected entries, the video search for entry 2 finding no match — creates the playlist, adds entries 1 and 3, and reports exactly one item-level warning. -/
theorem publish_item_failures_tolerated_witness :
    (createYouTubeMusicPlaylist "K" true (some "tok")
        [⟨"A1", "S1", true, none⟩, ⟨"A2", "S2", true, none⟩, ⟨"A3", "S3", true, none⟩]
        (.okResp "PL1" "T")
        (fun i => if i = 1 then YTSearchOutcome.notFound else YTSearchOutcome.found "vid")
        (fun _ => AddOutcome.okResp)).outcome = .done "PL1" ∧
    (createYouTubeMusicPlaylist "K" true (some "tok")
        [⟨"A1", "S1", true, none⟩, ⟨"A2", "S2", true, none⟩, ⟨"A3", "S3", true, none⟩]
        (.okResp "PL1" "T")
        (fun i => if i = 1 then YTSearchOutcome.notFound else YTSearchOutcome.found "vid")
        (fun _ => AddOutcome.okResp)).state.processed
      = ([⟨"A1", "S1", true, none⟩, ⟨"A2", "S2", true, none⟩,
          ⟨"A3", "S3", true, none⟩].filter
            (fun song : PlaylistEntry => song.selected)).length ∧
    (createYouTubeMusicPlaylist "K" true (some "tok")
        [⟨"A1", "S1", true, none⟩, ⟨"A2", "S2", true, none⟩, ⟨"A3", "S3", true, none⟩]
        (.okResp "PL1" "T")
        (fun i => if i = 1 then YTSearchOutcome.notFound else YTSearchOutcome.found "vid")
        (fun _ => AddOutcome.okResp)).state
      = ⟨["Could not find video for \"A2 - S2\". Skipping."], 2, 3⟩ :=
  ⟨(publish_item_failures_tolerated "K" (some "tok")
      [⟨"A1", "S1", true, none⟩, ⟨"A2", "S2", true, none⟩, ⟨"A3", "S3", true, none⟩]
      "PL1" "T"
      (fun i => if i = 1 then YTSearchOutcome.notFound else YTSearchOutcome.found "vid")
      (fun _ => AddOutcome.okResp) (by decide) rfl (by decide) (fun i => rfl)).1,
    (publish_item_failures_tolerated "K" (some "tok")
      [⟨"A1", "S1", true, none⟩, ⟨"A2", "S2", true, none⟩, ⟨"A3", "S3", true, none⟩]
      "PL1" "T"
      (fun i => if i = 1 then YTSearchOutcome.notFound else YTSearchOutcome.found "vid")
      (fun _ => AddOutcome.okResp) (by decide) rfl (by decide) (fun i => rfl)).2,
    by decide⟩
